import Mathlib

/-!
# Verification of the Skanderbeg API gateway (src/app/main.py)

Shallow embedding of the caching reverse proxy in `src/app/main.py`:
the MD5-based cache-key derivation (`get_cache_path`), the persistent
cache (`get_from_cache` / `save_to_cache`), the `/health` endpoint and
the `/api/getSaveDataDump` handler, together with proofs of the claimed
properties.
-/

namespace Skanderbeg

/-! ## MD5 (RFC 1321), as used by `hashlib.md5(query_params.encode()).hexdigest()`

Machine words are `Nat` kept below `2^32` by explicit `% 2^32`.
-/

/-- UTF-8 encoding of a single character (what `str.encode()` does per char). -/
def utf8Char (ch : Char) : List Nat :=
  let c := ch.toNat
  if c < 0x80 then [c]
  else if c < 0x800 then
    [0xC0 ||| (c >>> 6), 0x80 ||| (c &&& 0x3F)]
  else if c < 0x10000 then
    [0xE0 ||| (c >>> 12), 0x80 ||| ((c >>> 6) &&& 0x3F), 0x80 ||| (c &&& 0x3F)]
  else
    [0xF0 ||| (c >>> 18), 0x80 ||| ((c >>> 12) &&& 0x3F),
     0x80 ||| ((c >>> 6) &&& 0x3F), 0x80 ||| (c &&& 0x3F)]

/-- UTF-8 encoding of a string (`str.encode()`). -/
def utf8Bytes (s : String) : List Nat :=
  (s.data.map utf8Char).flatten

/-- Left-rotation of a 32-bit word. -/
def rotl32 (x n : Nat) : Nat :=
  ((x <<< n) % 2 ^ 32) ||| (x >>> (32 - n))

/-- 32-bit bitwise complement (operands stay below `2^32`). -/
def not32 (x : Nat) : Nat := 0xFFFFFFFF - x

/-- The 64 per-round shift amounts of MD5. -/
def md5S : List Nat :=
  [7, 12, 17, 22, 7, 12, 17, 22, 7, 12, 17, 22, 7, 12, 17, 22,
   5, 9, 14, 20, 5, 9, 14, 20, 5, 9, 14, 20, 5, 9, 14, 20,
   4, 11, 16, 23, 4, 11, 16, 23, 4, 11, 16, 23, 4, 11, 16, 23,
   6, 10, 15, 21, 6, 10, 15, 21, 6, 10, 15, 21, 6, 10, 15, 21]

/-- The 64 sine-derived additive constants of MD5. -/
def md5K : List Nat :=
  [0xd76aa478, 0xe8c7b756, 0x242070db, 0xc1bdceee,
   0xf57c0faf, 0x4787c62a, 0xa8304613, 0xfd469501,
   0x698098d8, 0x8b44f7af, 0xffff5bb1, 0x895cd7be,
   0x6b901122, 0xfd987193, 0xa679438e, 0x49b40821,
   0xf61e2562, 0xc040b340, 0x265e5a51, 0xe9b6c7aa,
   0xd62f105d, 0x02441453, 0xd8a1e681, 0xe7d3fbc8,
   0x21e1cde6, 0xc33707d6, 0xf4d50d87, 0x455a14ed,
   0xa9e3e905, 0xfcefa3f8, 0x676f02d9, 0x8d2a4c8a,
   0xfffa3942, 0x8771f681, 0x6d9d6122, 0xfde5380c,
   0xa4beea44, 0x4bdecfa9, 0xf6bb4b60, 0xbebfbc70,
   0x289b7ec6, 0xeaa127fa, 0xd4ef3085, 0x04881d05,
   0xd9d4d039, 0xe6db99e5, 0x1fa27cf8, 0xc4ac5665,
   0xf4292244, 0x432aff97, 0xab9423a7, 0xfc93a039,
   0x655b59c3, 0x8f0ccc92, 0xffeff47d, 0x85845dd1,
   0x6fa87e4f, 0xfe2ce6e0, 0xa3014314, 0x4e0811a1,
   0xf7537e82, 0xbd3af235, 0x2ad7d2bb, 0xeb86d391]

/-- Pad a byte message: append `0x80`, zeros to 56 mod 64, then the
64-bit little-endian bit length. -/
def padMessage (msg : List Nat) : List Nat :=
  let len := msg.length
  let zeros := (119 - len % 64) % 64
  let bitLen := (len * 8) % 2 ^ 64
  msg ++ [0x80] ++ List.replicate zeros 0 ++
    [bitLen % 256, bitLen / 2 ^ 8 % 256, bitLen / 2 ^ 16 % 256, bitLen / 2 ^ 24 % 256,
     bitLen / 2 ^ 32 % 256, bitLen / 2 ^ 40 % 256, bitLen / 2 ^ 48 % 256,
     bitLen / 2 ^ 56 % 256]

/-- Split a byte list into 64-byte chunks. -/
def chunks64 (l : List Nat) : List (List Nat) :=
  if h : l = [] then []
  else
    l.take 64 :: chunks64 (l.drop 64)
termination_by l.length
decreasing_by
  simp only [List.length_drop]
  exact Nat.sub_lt (List.length_pos.mpr h) (by omega)

/-- Decode a byte list into little-endian 32-bit words. -/
def bytesToWords : List Nat → List Nat
  | b0 :: b1 :: b2 :: b3 :: rest =>
      (b0 + 2 ^ 8 * b1 + 2 ^ 16 * b2 + 2 ^ 24 * b3) :: bytesToWords rest
  | _ => []

/-- One of the 64 MD5 operations, acting on the running `(A, B, C, D)` state. -/
def md5Step (m : List Nat) (st : Nat × Nat × Nat × Nat) (i : Nat) :
    Nat × Nat × Nat × Nat :=
  let (a, b, c, d) := st
  let f :=
    if i < 16 then (b &&& c) ||| (not32 b &&& d)
    else if i < 32 then (d &&& b) ||| (not32 d &&& c)
    else if i < 48 then b ^^^ c ^^^ d
    else c ^^^ (b ||| not32 d)
  let g :=
    if i < 16 then i
    else if i < 32 then (5 * i + 1) % 16
    else if i < 48 then (3 * i + 5) % 16
    else (7 * i) % 16
  let f := (f + a + md5K.getD i 0 + m.getD g 0) % 2 ^ 32
  (d, (b + rotl32 f (md5S.getD i 0)) % 2 ^ 32, b, c)

/-- Process one 64-byte chunk, updating the four state words. -/
def md5Chunk (st : Nat × Nat × Nat × Nat) (chunk : List Nat) :
    Nat × Nat × Nat × Nat :=
  let m := bytesToWords chunk
  let (a, b, c, d) := (List.range 64).foldl (md5Step m) st
  let (a0, b0, c0, d0) := st
  ((a0 + a) % 2 ^ 32, (b0 + b) % 2 ^ 32, (c0 + c) % 2 ^ 32, (d0 + d) % 2 ^ 32)

/-- The four 32-bit state words after hashing a whole byte message. -/
def md5Words (msg : List Nat) : Nat × Nat × Nat × Nat :=
  (chunks64 (padMessage msg)).foldl md5Chunk
    (0x67452301, 0xefcdab89, 0x98badcfe, 0x10325476)

/-- Little-endian byte serialization of a 32-bit word. -/
def word32Bytes (w : Nat) : List Nat :=
  [w % 256, w / 2 ^ 8 % 256, w / 2 ^ 16 % 256, w / 2 ^ 24 % 256]

/-- The 16-byte MD5 digest of a byte message. -/
def md5Digest (msg : List Nat) : List Nat :=
  let (a, b, c, d) := md5Words msg
  word32Bytes a ++ word32Bytes b ++ word32Bytes c ++ word32Bytes d

/-- Lowercase hexadecimal digit for a value below 16. -/
def hexChar (n : Nat) : Char :=
  if n < 10 then Char.ofNat (48 + n) else Char.ofNat (87 + n)

/-- The two lowercase hex digits of one byte. -/
def byteHexChars (b : Nat) : List Char :=
  [hexChar (b / 16 % 16), hexChar (b % 16)]

/-- Model of `hashlib.md5(...).hexdigest()` on a byte message. -/
def md5HexBytes (msg : List Nat) : String :=
  (((md5Digest msg).map byteHexChars).flatten).asString

/-- Model of `hashlib.md5(s.encode()).hexdigest()`. -/
def md5Hex (s : String) : String :=
  md5HexBytes (utf8Bytes s)

/-! ## JSON values and Python semantics

JSON numbers are modelled as integers (no claim depends on non-integral
numbers). A `Json.obj` stands for the Python `dict` produced by
`json.load`; lookups follow `dict` semantics (for duplicate keys the
last occurrence wins, as in Python's JSON parser). -/

inductive Json where
  | null
  | bool (b : Bool)
  | num (n : Int)
  | str (s : String)
  | arr (elems : List Json)
  | obj (fields : List (String × Json))
deriving Repr

/-- Python truthiness (`if cached_result:`) of a JSON value. -/
def Json.truthy : Json → Bool
  | .null => false
  | .bool b => b
  | .num n => decide (n ≠ 0)
  | .str s => decide (s ≠ "")
  | .arr elems => !elems.isEmpty
  | .obj fields => !fields.isEmpty

/-- Python `dict.get(k)`: the value of the last field named `k`, if any. -/
def dictGet (fields : List (String × Json)) (k : String) : Option Json :=
  fields.reverse.lookup k

/-- Python type name of a JSON value, as it appears in error messages. -/
def pyTypeName : Json → String
  | .null => "NoneType"
  | .bool _ => "bool"
  | .num _ => "int"
  | .str _ => "str"
  | .arr _ => "list"
  | .obj _ => "dict"

/-- Message of the `AttributeError` raised by `x.get("data")` when `x`
is not a `dict`. -/
def attrErrorMsg (j : Json) : String :=
  "'" ++ pyTypeName j ++ "' object has no attribute 'get'"

/-! ## Cache store

The cache directory is modelled as a map from file name (relative to
`CACHE_DIR`) to file content. A file on disk either parses as JSON or
makes `open`/`json.load` raise (`RawFile.invalid` covers both an
unreadable file and a file holding invalid JSON). -/

inductive RawFile where
  | json (j : Json)
  | invalid


/-- The contents of `CACHE_DIR`: file name to file content. -/
def FS := String → Option RawFile

/-- `get_cache_path`: file name `<md5-hex>.json` derived from the
query-parameter string (relative to `CACHE_DIR`). -/
def get_cache_path (query_params : String) : String :=
  md5Hex query_params ++ ".json"

/-- `get_from_cache`: return the parsed cache file if it exists and
parses; an unreadable or invalid file is logged and treated as absent. -/
def get_from_cache (fs : FS) (query_params : String) : Option Json :=
  match fs (get_cache_path query_params) with
  | some (.json j) => some j
  | some .invalid => none
  | none => none

/-- Overwrite one file of the cache directory. -/
def writeFile (fs : FS) (p : String) (j : Json) : FS :=
  fun q => if q = p then some (.json j) else fs q

/-- `save_to_cache`: best-effort write of `data` under the derived file
name. `writeOk` models whether the filesystem write succeeds; a failed
write is logged and swallowed, leaving the store unchanged. -/
def save_to_cache (fs : FS) (writeOk : Bool) (query_params : String)
    (data : Json) : FS :=
  if writeOk then writeFile fs (get_cache_path query_params) data else fs

/-! ## The `/api/getSaveDataDump` handler -/

/-- Outcome of the single `requests.get` call made on a cache miss.
`transportError` covers connection failures, timeouts and the
`HTTPError` raised by `raise_for_status()` on a non-2xx status;
`decodeError` covers a 2xx response whose body is not valid JSON
(`requests.exceptions.JSONDecodeError`). All of these are subclasses of
`requests.exceptions.RequestException`. -/
inductive UpstreamOutcome where
  | ok (body : Json)
  | transportError (msg : String)
  | decodeError (msg : String)


/-- An HTTP response of the endpoint: a 200 with a JSON body, or an
`HTTPException` with a status code and a detail message. -/
inductive Response where
  | ok (body : Json)
  | error (status : Nat) (detail : String)


/-- What one request leaves behind: the HTTP response, the cache
directory contents afterwards, and how many upstream HTTP calls were
made. -/
structure HandlerResult where
  response : Response
  fs : FS
  upstreamCalls : Nat

/-- The Entry persisted on a cache miss:
`{"data": ..., "timestamp": ..., "save": ..., "type": ...}`. -/
def cacheEntry (api_data : Json) (now save ty : String) : Json :=
  .obj [("data", api_data), ("timestamp", .str now),
        ("save", .str save), ("type", .str ty)]

/-- The cache-miss path of the handler: call upstream, and on success
persist the wrapped Entry (best effort) and return the raw payload; a
`RequestException` becomes HTTP 502. -/
def missPath (fs : FS) (upstream : UpstreamOutcome) (writeOk : Bool)
    (now save ty query_key : String) : HandlerResult :=
  match upstream with
  | .ok api_data =>
      { response := .ok api_data
        fs := save_to_cache fs writeOk query_key (cacheEntry api_data now save ty)
        upstreamCalls := 1 }
  | .transportError msg =>
      { response := .error 502 ("External API error: " ++ msg), fs := fs
        upstreamCalls := 1 }
  | .decodeError msg =>
      { response := .error 502 ("External API error: " ++ msg), fs := fs
        upstreamCalls := 1 }

/-- The `/api/getSaveDataDump` handler. `fs` is the cache directory
before the request, `upstream` the outcome the upstream API would give,
`writeOk` whether a cache write would succeed, `now` the formatted
current UTC time, and `save`/`ty` the two query parameters (`ty` is the
`type` parameter, defaulting to `"countriesData"` at the HTTP layer).
A truthy cached value short-circuits; a truthy non-`dict` cached value
makes `.get` raise `AttributeError`, caught as HTTP 500. -/
def get_save_data_dump (fs : FS) (upstream : UpstreamOutcome)
    (writeOk : Bool) (now save ty : String) : HandlerResult :=
  let query_key := "save=" ++ save ++ "&type=" ++ ty
  match get_from_cache fs query_key with
  | some cached =>
      if cached.truthy then
        match cached with
        | .obj fields =>
            { response := .ok ((dictGet fields "data").getD .null), fs := fs
              upstreamCalls := 0 }
        | other =>
            { response := .error 500 ("Internal server error: " ++ attrErrorMsg other)
              fs := fs, upstreamCalls := 0 }
      else
        missPath fs upstream writeOk now save ty query_key
  | none => missPath fs upstream writeOk now save ty query_key

/-! ## The `/health` endpoint -/

/-- One entry produced by `CACHE_DIR.glob(..)`: its path, whether it is
a regular file, and its size in bytes (`st_size`). -/
structure DirEntry where
  path : String
  isFile : Bool
  size : Nat


/-- Body of the `/health` response. `cache_size_mb` is modelled as an
exact rational. -/
structure HealthResponse where
  status : String
  timestamp : String
  cache_dir : String
  cache_size_mb : ℚ


/-- The `/health` handler: `entries` are the glob results under
`CACHE_DIR` (recursive), `now` the formatted current UTC time. -/
def health_check (entries : List DirEntry) (now cacheDir : String) :
    HealthResponse :=
  { status := "healthy"
    timestamp := now
    cache_dir := cacheDir
    cache_size_mb :=
      ((((entries.filter (fun f => f.isFile)).map (fun f => f.size)).sum : Nat) : ℚ)
        / (1024 * 1024) }

/-! ## Helper lemmas -/

/-- The canonical query string built by the handler
(`query_key = f"save={save}&type={type}"`). -/
def queryKey (save ty : String) : String :=
  "save=" ++ save ++ "&type=" ++ ty

/-- Whenever the cache probe yields nothing truthy, the handler runs the
cache-miss path. -/
lemma handler_eq_missPath (fs : FS) (u : UpstreamOutcome) (w : Bool)
    (now save ty : String)
    (hc : ∀ c, get_from_cache fs (queryKey save ty) = some c → c.truthy = false) :
    get_save_data_dump fs u w now save ty =
      missPath fs u w now save ty (queryKey save ty) := by
  unfold get_save_data_dump
  cases h : get_from_cache fs (queryKey save ty) with
  | none => simp only [queryKey] at h; simp only [h]; rfl
  | some c =>
      have hct := hc c h
      simp only [queryKey] at h
      simp only [h, hct, Bool.false_eq_true, if_false]
      rfl

/-- The miss path always makes exactly one upstream call. -/
lemma missPath_upstreamCalls (fs : FS) (u : UpstreamOutcome) (w : Bool)
    (now save ty qk : String) :
    (missPath fs u w now save ty qk).upstreamCalls = 1 := by
  cases u <;> rfl

/-- Lowercase hexadecimal characters. -/
def isHexLower (c : Char) : Bool :=
  (decide ('0' ≤ c) && decide (c ≤ '9')) || (decide ('a' ≤ c) && decide (c ≤ 'f'))

lemma hexChar_isHexLower (n : Nat) (h : n < 16) :
    isHexLower (hexChar n) = true := by
  interval_cases n <;> decide

lemma byteHexChars_length (b : Nat) : (byteHexChars b).length = 2 := rfl

lemma byteHexChars_hex (b : Nat) :
    (byteHexChars b).all isHexLower = true := by
  simp only [byteHexChars, List.all_cons, List.all_nil, Bool.and_true]
  rw [hexChar_isHexLower _ (Nat.mod_lt _ (by omega)),
    hexChar_isHexLower _ (Nat.mod_lt _ (by omega))]
  rfl

lemma flatten_byteHexChars_length (bs : List Nat) :
    ((bs.map byteHexChars).flatten).length = 2 * bs.length := by
  induction bs with
  | nil => rfl
  | cons b rest ih =>
      simp only [List.map_cons, List.flatten_cons, List.length_append,
        byteHexChars_length, ih, List.length_cons]
      omega

lemma flatten_byteHexChars_hex (bs : List Nat) :
    ((bs.map byteHexChars).flatten).all isHexLower = true := by
  induction bs with
  | nil => rfl
  | cons b rest ih =>
      simp only [List.map_cons, List.flatten_cons, List.all_append, ih,
        byteHexChars_hex, Bool.and_self]

/-- The MD5 digest is sixteen bytes long. -/
lemma md5Digest_length (msg : List Nat) : (md5Digest msg).length = 16 := by
  rw [md5Digest]
  rcases md5Words msg with ⟨a, b, c, d⟩
  rfl

/-- Every MD5 hex digest is 32 characters long. -/
lemma md5Hex_length (s : String) : (md5Hex s).length = 32 := by
  show (((md5Digest (utf8Bytes s)).map byteHexChars).flatten).asString.length = 32
  rw [List.length_asString, flatten_byteHexChars_length, md5Digest_length]

/-- Every character of an MD5 hex digest is a lowercase hex digit. -/
lemma md5Hex_all_hex (s : String) : (md5Hex s).data.all isHexLower = true := by
  show (((md5Digest (utf8Bytes s)).map byteHexChars).flatten).asString.data.all
    isHexLower = true
  exact flatten_byteHexChars_hex _

/-! ## Claim theorems -/

/-- C1: Cache-hit short-circuit — when a cache Entry is persisted under
the derived key, the handler returns the cached entry's `data` field
unchanged, makes zero upstream calls, and leaves the store untouched. -/
theorem cache_hit_short_circuit (fs : FS) (u : UpstreamOutcome) (w : Bool)
    (now save ty : String) (d : Json) (ts sv tv : String)
    (h : fs (get_cache_path (queryKey save ty)) =
      some (.json (cacheEntry d ts sv tv))) :
    get_save_data_dump fs u w now save ty =
      { response := .ok d, fs := fs, upstreamCalls := 0 } := by
  have hget : get_from_cache fs (queryKey save ty) = some (cacheEntry d ts sv tv) := by
    unfold get_from_cache
    rw [h]
  unfold get_save_data_dump
  simp only [queryKey] at hget
  simp only [hget]
  rfl

/-- C2: Read-through correctness — with no prior cache entry for the
derived key and a successful upstream response, the handler makes
exactly one upstream call, writes exactly the one file
`<md5-hex>.json` holding the wrapped Entry, and returns the raw
upstream payload unwrapped. -/
theorem read_through_correctness (fs : FS) (save ty : String) (j : Json)
    (now : String)
    (h : fs (get_cache_path (queryKey save ty)) = none) :
    get_save_data_dump fs (.ok j) true now save ty =
      { response := .ok j
        fs := writeFile fs (md5Hex (queryKey save ty) ++ ".json")
          (.obj [("data", j), ("timestamp", .str now),
                 ("save", .str save), ("type", .str ty)])
        upstreamCalls := 1 } := by
  have hget : get_from_cache fs (queryKey save ty) = none := by
    unfold get_from_cache
    rw [h]
  rw [handler_eq_missPath _ _ _ _ _ _ (fun c hc => by rw [hget] at hc; cases hc)]
  rfl

/-- C3: Upstream failure surfacing with atomicity — if the probe finds
nothing truthy and the upstream call fails (transport error, timeout,
non-2xx status, or non-JSON body), the request fails with HTTP 502
carrying the underlying error text and the cache store is unchanged. -/
theorem upstream_failure_surfaced (fs : FS) (u : UpstreamOutcome) (w : Bool)
    (now save ty msg : String)
    (hc : ∀ c, get_from_cache fs (queryKey save ty) = some c → c.truthy = false)
    (hu : u = .transportError msg ∨ u = .decodeError msg) :
    get_save_data_dump fs u w now save ty =
      { response := .error 502 ("External API error: " ++ msg), fs := fs
        upstreamCalls := 1 } := by
  rw [handler_eq_missPath _ _ _ _ _ _ hc]
  rcases hu with h | h <;> rw [h] <;> rfl

/-- C4: Cache-write failure isolation — on a cache miss with a
successful upstream response, a failing cache write still yields
HTTP 200 with the freshly fetched payload (and leaves the store
unchanged). -/
theorem cache_write_failure_isolated (fs : FS) (now save ty : String)
    (j : Json)
    (hc : ∀ c, get_from_cache fs (queryKey save ty) = some c → c.truthy = false) :
    get_save_data_dump fs (.ok j) false now save ty =
      { response := .ok j, fs := fs, upstreamCalls := 1 } := by
  rw [handler_eq_missPath _ _ _ _ _ _ hc]
  rfl

/-- C5: Cache-read failure degrades to miss — an existing but
unreadable/invalid cache file is read as absent and the request falls
through to the upstream path (one upstream call). -/
theorem cache_read_failure_degrades_to_miss (fs : FS) (u : UpstreamOutcome)
    (w : Bool) (now save ty : String)
    (h : fs (get_cache_path (queryKey save ty)) = some .invalid) :
    get_from_cache fs (queryKey save ty) = none ∧
    get_save_data_dump fs u w now save ty =
      missPath fs u w now save ty (queryKey save ty) ∧
    (get_save_data_dump fs u w now save ty).upstreamCalls = 1 := by
  have hget : get_from_cache fs (queryKey save ty) = none := by
    unfold get_from_cache
    rw [h]
  have hmiss := handler_eq_missPath fs u w now save ty
    (fun c hc => by rw [hget] at hc; cases hc)
  refine ⟨hget, hmiss, ?_⟩
  rw [hmiss]
  exact missPath_upstreamCalls ..

/-- C9: Falsy cached entries are treated as misses — a cache file that
parses to a falsy JSON value does not short-circuit; the handler runs
the cache-miss path (one upstream call), as if the entry were absent. -/
theorem falsy_entry_treated_as_miss (fs : FS) (u : UpstreamOutcome)
    (w : Bool) (now save ty : String) (c : Json)
    (h : fs (get_cache_path (queryKey save ty)) = some (.json c))
    (hfalsy : c.truthy = false) :
    get_save_data_dump fs u w now save ty =
      missPath fs u w now save ty (queryKey save ty) ∧
    (get_save_data_dump fs u w now save ty).upstreamCalls = 1 := by
  have hget : get_from_cache fs (queryKey save ty) = some c := by
    unfold get_from_cache
    rw [h]
  have hmiss := handler_eq_missPath fs u w now save ty
    (fun c' hc' => by rw [hget] at hc'; cases hc'; exact hfalsy)
  refine ⟨hmiss, ?_⟩
  rw [hmiss]
  exact missPath_upstreamCalls ..

/-- C10: A truthy cached object without a `"data"` key takes the
cache-hit path and returns JSON null with HTTP 200, making no upstream
call. -/
theorem hit_without_data_returns_null (fs : FS) (u : UpstreamOutcome)
    (w : Bool) (now save ty : String) (fields : List (String × Json))
    (h : fs (get_cache_path (queryKey save ty)) = some (.json (.obj fields)))
    (hne : fields ≠ [])
    (hnodata : dictGet fields "data" = none) :
    get_save_data_dump fs u w now save ty =
      { response := .ok .null, fs := fs, upstreamCalls := 0 } := by
  have hget : get_from_cache fs (queryKey save ty) = some (.obj fields) := by
    unfold get_from_cache
    rw [h]
  unfold get_save_data_dump
  simp only [queryKey] at hget
  simp only [hget]
  have htruthy : (Json.obj fields).truthy = true := by
    simp [Json.truthy, hne]
  simp only [htruthy, if_true, hnodata]
  rfl

/-- C6: Key derivation — the cache key is the MD5 hex digest of the
exact string `save={save}&type={type}` built from the raw parameter
values (the derived file name appends `.json`); the digest is 32
lowercase hexadecimal characters. The key is a pure function of the
two parameters — no salt or randomness enters the derivation. -/
theorem cache_key_derivation (save ty : String) :
    get_cache_path (queryKey save ty) =
      md5Hex ("save=" ++ save ++ "&type=" ++ ty) ++ ".json" ∧
    (md5Hex ("save=" ++ save ++ "&type=" ++ ty)).length = 32 ∧
    (md5Hex ("save=" ++ save ++ "&type=" ++ ty)).data.all isHexLower = true :=
  ⟨rfl, md5Hex_length _, md5Hex_all_hex _⟩

/-- C7 counterexample: two different `(save, type)` parameter pairs
whose canonical strings coincide receive the identical cache key with
certainty — the serialization `save={save}&type={type}` is not
injective, so a difference in parameter values does not imply a
different key even with overwhelming probability. -/
theorem distinct_params_same_key :
    (("a&type=b", "c") : String × String) ≠ ("a", "b&type=c") ∧
    get_cache_path (queryKey "a&type=b" "c") =
      get_cache_path (queryKey "a" "b&type=c") := by
  refine ⟨by decide, ?_⟩
  have h : queryKey "a&type=b" "c" = queryKey "a" "b&type=c" := by decide
  rw [h]

/-- C7 (amended): identical parameter sets always yield the identical
cache key, and the key depends only on the canonical string
`save={save}&type={type}` — so any two parameter pairs whose canonical
strings coincide (even with different `save`/`type` values) always
yield the identical key; distinct keys can only arise from distinct
canonical strings. -/
theorem key_determined_by_canonical (s t s' t' : String)
    (h : "save=" ++ s ++ "&type=" ++ t = "save=" ++ s' ++ "&type=" ++ t') :
    get_cache_path (queryKey s t) = get_cache_path (queryKey s' t') := by
  simp only [queryKey, h]

/-- Sum in bytes of the sizes of the regular files under the cache
directory, as the spec words it. -/
def specRegularFileBytes (entries : List DirEntry) : Nat :=
  ((entries.filter (fun f => f.isFile)).map (fun f => f.size)).sum

/-- C8: Health endpoint size accounting — `/health` reports status
"healthy", the formatted current time, the cache directory path, and
`cache_size_mb` equal to the summed sizes of the regular files under
the cache directory divided by 1024 * 1024. -/
theorem health_size_accounting (entries : List DirEntry)
    (now cacheDir : String) :
    health_check entries now cacheDir =
      { status := "healthy", timestamp := now, cache_dir := cacheDir
        cache_size_mb := (specRegularFileBytes entries : ℚ) / (1024 * 1024) } :=
  rfl

/-! ## Concrete cache states for the witnesses -/

/-- An empty cache directory. -/
def emptyFS : FS := fun _ => none

/-- A cache directory holding one well-formed Entry for
`save=S1&type=countriesData`. -/
def fsHit : FS := fun p =>
  if p = get_cache_path (queryKey "S1" "countriesData") then
    some (.json (cacheEntry (.obj [("foo", .str "bar")]) "T0" "S1" "countriesData"))
  else none

/-- A cache directory whose file for `save=S1&type=countriesData` is
unreadable or invalid JSON. -/
def fsBad : FS := fun p =>
  if p = get_cache_path (queryKey "S1" "countriesData") then some .invalid
  else none

/-- A cache directory whose file for `save=S1&type=countriesData`
parses to the falsy JSON value `{}`. -/
def fsFalsy : FS := fun p =>
  if p = get_cache_path (queryKey "S1" "countriesData") then
    some (.json (.obj []))
  else none

/-- A cache directory whose file for `save=S1&type=countriesData`
parses to a truthy object with no `"data"` key. -/
def fsNoData : FS := fun p =>
  if p = get_cache_path (queryKey "S1" "countriesData") then
    some (.json (.obj [("x", .num 1)]))
  else none

/-- Witness for C1 at a concrete cached Entry. -/
theorem cache_hit_short_circuit_witness :
    get_save_data_dump fsHit (.transportError "boom") true "T1" "S1" "countriesData" =
      { response := .ok (.obj [("foo", .str "bar")]), fs := fsHit
        upstreamCalls := 0 } :=
  cache_hit_short_circuit fsHit (.transportError "boom") true "T1" "S1"
    "countriesData" (.obj [("foo", .str "bar")]) "T0" "S1" "countriesData"
    (if_pos rfl)

/-- Witness for C2 at the empty cache directory. -/
theorem read_through_correctness_witness :
    get_save_data_dump emptyFS (.ok (.obj [("foo", .str "bar")])) true "T1"
        "S1" "countriesData" =
      { response := .ok (.obj [("foo", .str "bar")])
        fs := writeFile emptyFS (md5Hex (queryKey "S1" "countriesData") ++ ".json")
          (.obj [("data", .obj [("foo", .str "bar")]), ("timestamp", .str "T1"),
                 ("save", .str "S1"), ("type", .str "countriesData")])
        upstreamCalls := 1 } :=
  read_through_correctness emptyFS "S1" "countriesData"
    (.obj [("foo", .str "bar")]) "T1" rfl

/-- Witness for C3 at a concrete upstream timeout. -/
theorem upstream_failure_surfaced_witness :
    get_save_data_dump emptyFS (.transportError "Read timed out") true "T1"
        "S1" "countriesData" =
      { response := .error 502 ("External API error: " ++ "Read timed out")
        fs := emptyFS, upstreamCalls := 1 } :=
  upstream_failure_surfaced emptyFS (.transportError "Read timed out") true
    "T1" "S1" "countriesData" "Read timed out"
    (fun _ hc => nomatch hc) (Or.inl rfl)

/-- Witness for C4 at a concrete failing cache write. -/
theorem cache_write_failure_isolated_witness :
    get_save_data_dump emptyFS (.ok (.num 7)) false "T1" "S1" "countriesData" =
      { response := .ok (.num 7), fs := emptyFS, upstreamCalls := 1 } :=
  cache_write_failure_isolated emptyFS "T1" "S1" "countriesData" (.num 7)
    (fun _ hc => nomatch hc)

/-- Witness for C5 at a concrete invalid cache file. -/
theorem cache_read_failure_degrades_to_miss_witness :
    get_from_cache fsBad (queryKey "S1" "countriesData") = none ∧
    get_save_data_dump fsBad (.ok (.num 1)) true "T1" "S1" "countriesData" =
      missPath fsBad (.ok (.num 1)) true "T1" "S1" "countriesData"
        (queryKey "S1" "countriesData") ∧
    (get_save_data_dump fsBad (.ok (.num 1)) true "T1" "S1"
      "countriesData").upstreamCalls = 1 :=
  cache_read_failure_degrades_to_miss fsBad (.ok (.num 1)) true "T1" "S1"
    "countriesData" (if_pos rfl)

/-- Witness for C7 (amended) at the concrete colliding parameter
pairs. -/
theorem key_determined_by_canonical_witness :
    get_cache_path (queryKey "a&type=b" "c") =
      get_cache_path (queryKey "a" "b&type=c") :=
  key_determined_by_canonical "a&type=b" "c" "a" "b&type=c" (by decide)

/-- Witness for C9 at a concrete falsy cached value. -/
theorem falsy_entry_treated_as_miss_witness :
    get_save_data_dump fsFalsy (.ok (.num 2)) true "T1" "S1" "countriesData" =
      missPath fsFalsy (.ok (.num 2)) true "T1" "S1" "countriesData"
        (queryKey "S1" "countriesData") ∧
    (get_save_data_dump fsFalsy (.ok (.num 2)) true "T1" "S1"
      "countriesData").upstreamCalls = 1 :=
  falsy_entry_treated_as_miss fsFalsy (.ok (.num 2)) true "T1" "S1"
    "countriesData" (.obj []) (if_pos rfl) rfl

/-- Witness for C10 at a concrete truthy object lacking `"data"`. -/
theorem hit_without_data_returns_null_witness :
    get_save_data_dump fsNoData (.ok (.num 3)) true "T1" "S1" "countriesData" =
      { response := .ok .null, fs := fsNoData, upstreamCalls := 0 } :=
  hit_without_data_returns_null fsNoData (.ok (.num 3)) true "T1" "S1"
    "countriesData" [("x", .num 1)] (if_pos rfl)
    (List.cons_ne_nil _ _) rfl

end Skanderbeg

